import Mathlib

/-!
Verification of the `AddLoraText` component
(`src/components/PromptForm/AddLoraText.tsx`).

The component is a single-threaded, event-driven UI widget.  Its local
state (React `useState` hooks) together with the shared `loraTextList`
from the prompt-form store is embedded as the structure `ComponentState`.
Each event handler of the source becomes a pure transition function on
that state.  The asynchronous `fetchTunes` has exactly one suspension
point (the `await getTunes(...)`), so it is embedded in two phases:
`fetchTunesStart` (the in-flight guard, `setLoading(true)`,
`setError(null)`, and the issuing of the request) and
`fetchTunesComplete` (the handling of the response or of the thrown
error, and the `finally setLoading(false)`).  `fetchTunes` composes the
two phases for the case where the response arrives while no other event
intervenes, which is the situation all the claims speak about.  Scroll
measurements (JS numbers) are embedded as rationals.
-/

namespace AddLoraText

/-- Record type of the remote catalog items, from the `Tune` interface of
the source: an identifier, a title, and a list of preview image URLs. -/
structure Tune where
  id : String
  title : String
  orig_images : List String
deriving Repr, DecidableEq

/-- Fixed page size, from `const ITEMS_PER_PAGE = 12`. -/
def ITEMS_PER_PAGE : Nat := 12

/-- The component state: the seven `useState` hooks of `AddLoraText`
plus the shared `loraTextList` read from `usePromptFormStore`. -/
structure ComponentState where
  isOpen : Bool
  tunes : List Tune
  loading : Bool
  error : Option String
  page : Nat
  hasMore : Bool
  searchQuery : String
  debouncedSearch : String
  loraTextList : List String
deriving Repr, DecidableEq

/-- Initial state, from the `useState` initializers:
`useState(false)`, `useState<Tune[]>([])`, `useState(false)`,
`useState<string | null>(null)`, `useState(1)`, `useState(true)`,
`useState('')`, `useState('')`; the shared list starts empty. -/
def initialState : ComponentState where
  isOpen := false
  tunes := []
  loading := false
  error := none
  page := 1
  hasMore := true
  searchQuery := ""
  debouncedSearch := ""
  loraTextList := []

/-- Events delivered to the optional caller-supplied callbacks:
`onSelect?.(tune)` and `onRemove?.(loraText)`. -/
inductive CallbackEvent where
  | selected (tune : Tune)
  | removed (loraText : String)
deriving Repr, DecidableEq

/-- First phase of `fetchTunes`, up to the `await`:
`if (loading) return;` then `setLoading(true); setError(null);`.
The boolean of the result records whether the guard was passed,
i.e. whether a request is actually issued. -/
def fetchTunesStart (s : ComponentState) : ComponentState × Bool :=
  if s.loading then (s, false)
  else ({ s with loading := true, error := none }, true)

/-- The argument triple `(page, ITEMS_PER_PAGE, debouncedSearch)` that a
fetch issued from state `s` passes to `getTunes`. -/
def issuedRequest (s : ComponentState) : Nat × Nat × String :=
  (s.page, ITEMS_PER_PAGE, s.debouncedSearch)

/-- Second phase of `fetchTunes`, after the `await`.  A successful
response runs
`setTunes(prev => page === 1 ? response : [...prev, ...response]);`
`setHasMore(response.length > 0 && response.length === ITEMS_PER_PAGE);`
while a thrown error runs
`setError('Failed to load tunes. Please try again.');`
and both run the `finally` clause `setLoading(false)`. -/
def fetchTunesComplete (s : ComponentState) (result : Except String (List Tune)) :
    ComponentState :=
  match result with
  | Except.ok response =>
      { s with
        tunes := if s.page = 1 then response else s.tunes ++ response,
        hasMore := decide (response.length > 0) && decide (response.length = ITEMS_PER_PAGE),
        loading := false }
  | Except.error _ =>
      { s with
        error := some "Failed to load tunes. Please try again.",
        loading := false }

/-- A whole run of `fetchTunes` in which the response (or thrown error)
`result` is processed with no intervening event: the guard phase,
followed by the completion phase when the guard was passed. -/
def fetchTunes (s : ComponentState) (result : Except String (List Tune)) :
    ComponentState :=
  let started := fetchTunesStart s
  if started.2 then fetchTunesComplete started.1 result else started.1

/-- The `handleScroll` handler: reading `scrollTop`, `clientHeight` and
`scrollHeight` from the event target,
`if (scrollHeight - scrollTop <= clientHeight * 1.5 && hasMore && !loading)`
`then setPage(prev => prev + 1)`. -/
def handleScroll (s : ComponentState)
    (scrollTop clientHeight scrollHeight : ℚ) : ComponentState :=
  if decide (scrollHeight - scrollTop ≤ clientHeight * (3 / 2)) && s.hasMore && !s.loading then
    { s with page := s.page + 1 }
  else s

/-- The `handleSelect` handler:
`setLoraTextList([...loraTextList, "<lora:" + tune.id + ":1>"]);`
`onSelect?.(tune); setIsOpen(false);`.  The boolean says whether the
optional `onSelect` prop was supplied; the second component collects the
callback invocations. -/
def handleSelect (hasOnSelect : Bool) (s : ComponentState) (tune : Tune) :
    ComponentState × List CallbackEvent :=
  ({ s with
      loraTextList := s.loraTextList ++ ["<lora:" ++ tune.id ++ ":1>"],
      isOpen := false },
   if hasOnSelect then [CallbackEvent.selected tune] else [])

/-- The remove button's `onClick` for the entry at position `index`:
`setLoraTextList(loraTextList.filter((_, i) => i !== index));`
`onRemove?.(loraTextList[index]);`.  JS `Array.filter` with the index
argument is embedded as filtering the enumerated list.  The button is
rendered once per entry, so `index` is always in range; `get?` returns
the entry the callback receives. -/
def removeLora (hasOnRemove : Bool) (s : ComponentState) (index : Nat) :
    ComponentState × List CallbackEvent :=
  ({ s with
      loraTextList :=
        ((s.loraTextList.enum.filter (fun p => p.1 != index)).map Prod.snd) },
   match hasOnRemove, s.loraTextList.get? index with
   | true, some v => [CallbackEvent.removed v]
   | _, _ => [])

/-- A keystroke in the search input:
`onChange={(e) => setSearchQuery(e.target.value)}`. -/
def setSearchQuery (s : ComponentState) (q : String) : ComponentState :=
  { s with searchQuery := q }

/-- The debounce timer firing after 300ms of inactivity:
`setDebouncedSearch(searchQuery); setPage(1); setTunes([]);`. -/
def debounceFire (s : ComponentState) : ComponentState :=
  { s with debouncedSearch := s.searchQuery, page := 1, tunes := [] }

/-- The scroll-triggered page increment in isolation:
`setPage(prev => prev + 1)`. -/
def incPage (s : ComponentState) : ComponentState :=
  { s with page := s.page + 1 }

/-- A sequence of successful page fetches, each followed by the page
increment that triggers the next one: page 1, then successive
increments. -/
def runSuccessSeq (s : ComponentState) (responses : List (List Tune)) :
    ComponentState :=
  responses.foldl (fun st r => incPage (fetchTunes st (Except.ok r))) s

/-- Concrete catalog item used in evaluations. -/
def sampleTune : Tune where
  id := "abc"
  title := "sample"
  orig_images := ["img"]

/-- Concrete state with two selections, from the spec's removal example. -/
def twoLoraState : ComponentState :=
  { initialState with loraTextList := ["<lora:a:1>", "<lora:b:1>"] }

/-- Concrete state with a fetch in flight. -/
def loadingState : ComponentState :=
  { initialState with loading := true }

/-! ### Helper lemmas -/

/-- Unfolding of a successful fetch from a non-loading state. -/
lemma fetchTunes_ok (s : ComponentState) (r : List Tune) (h : s.loading = false) :
    fetchTunes s (Except.ok r) =
      { s with
        error := none,
        tunes := if s.page = 1 then r else s.tunes ++ r,
        hasMore := decide (r.length > 0) && decide (r.length = ITEMS_PER_PAGE),
        loading := false } := by
  simp [fetchTunes, fetchTunesStart, fetchTunesComplete, h]

/-- Unfolding of a failed fetch from a non-loading state. -/
lemma fetchTunes_error (s : ComponentState) (msg : String) (h : s.loading = false) :
    fetchTunes s (Except.error msg) =
      { s with
        error := some "Failed to load tunes. Please try again.",
        loading := false } := by
  simp [fetchTunes, fetchTunesStart, fetchTunesComplete, h]

/-- Accumulation invariant of `runSuccessSeq` once past page 1: from a
non-loading state on a page other than 1, every response is appended. -/
lemma runSuccessSeq_append (responses : List (List Tune)) :
    ∀ s : ComponentState, s.loading = false → 2 ≤ s.page →
      (runSuccessSeq s responses).tunes.length =
        s.tunes.length + (responses.map List.length).sum := by
  induction responses with
  | nil => intro s _ _; simp [runSuccessSeq]
  | cons r rs ih =>
      intro s hl hp
      have hstep : runSuccessSeq s (r :: rs) =
          runSuccessSeq (incPage (fetchTunes s (Except.ok r))) rs := by
        simp [runSuccessSeq, List.foldl_cons]
      rw [hstep, fetchTunes_ok s r hl]
      rw [if_neg (by omega : ¬ s.page = 1)]
      have h2 := ih (incPage
        { s with
          error := none,
          tunes := s.tunes ++ r,
          hasMore := decide (r.length > 0) && decide (r.length = ITEMS_PER_PAGE),
          loading := false })
      simp [incPage] at h2 ⊢
      rw [h2 (by omega)]
      ring

/-- Filtering an enumeration that starts above the banned index keeps
every element. -/
lemma enumFrom_filter_lt {α : Type} (l : List α) : ∀ (n k : Nat), k < n →
    ((List.enumFrom n l).filter (fun p => p.1 != k)).map Prod.snd = l := by
  induction l with
  | nil => intro n k _; rfl
  | cons a l ih =>
      intro n k hk
      have hne : (n != k) = true := by
        simpa using Nat.ne_of_gt hk
      simp [List.enumFrom, List.filter_cons, hne,
        ih (n + 1) k (Nat.lt_succ_of_lt hk)]

/-- JS `Array.filter((_, i) => i !== index)` removes exactly the entry at
`index`: filtering the enumeration from `n` by `p.1 != n + i` erases the
element at position `i`. -/
lemma enumFrom_filter_ne_map_snd {α : Type} (l : List α) : ∀ (n i : Nat),
    ((List.enumFrom n l).filter (fun p => p.1 != n + i)).map Prod.snd =
      l.eraseIdx i := by
  induction l with
  | nil => intro n i; rfl
  | cons a l ih =>
      intro n i
      cases i with
      | zero =>
          simp [List.enumFrom, List.filter_cons, List.eraseIdx]
          exact enumFrom_filter_lt l (n + 1) n (Nat.lt_succ_self n)
      | succ j =>
          have hidx : n + (j + 1) = (n + 1) + j := by omega
          simp only [List.enumFrom, List.filter_cons, hidx, List.map_cons,
            List.eraseIdx]
          have hne : (n != n + 1 + j) = true := by
            simp only [bne_iff_ne, ne_eq]
            omega
          rw [if_pos hne]
          simp [ih (n + 1) j]

/-- The removal handler computes `List.eraseIdx`: it deletes exactly the
entry at `index` and shifts later entries down by one. -/
lemma removeLora_eraseIdx (hasOnRemove : Bool) (s : ComponentState) (index : Nat) :
    (removeLora hasOnRemove s index).1.loraTextList =
      s.loraTextList.eraseIdx index := by
  have h := enumFrom_filter_ne_map_snd s.loraTextList 0 index
  simp only [Nat.zero_add] at h
  simpa [removeLora, List.enum] using h

/-! ### Claims -/

/-- C1: for every successful fetch from a non-loading state, if the page
counter equals 1 the result list is replaced by the returned items and
otherwise the returned items are appended after the existing ones; and
for any sequence of successful page fetches starting from the initial
state (page 1, then successive increments), the accumulated result list
length equals the sum of the per-page item counts returned so far. -/
theorem fetch_accumulation_c1 (s : ComponentState) (resp : List Tune)
    (responses : List (List Tune)) (h : s.loading = false) :
    ((fetchTunes s (Except.ok resp)).tunes =
        if s.page = 1 then resp else s.tunes ++ resp)
    ∧ (runSuccessSeq initialState responses).tunes.length =
        (responses.map List.length).sum := by
  constructor
  · rw [fetchTunes_ok s resp h]
  · cases responses with
    | nil => rfl
    | cons r rs =>
        have hstep : runSuccessSeq initialState (r :: rs) =
            runSuccessSeq (incPage (fetchTunes initialState (Except.ok r))) rs := by
          simp [runSuccessSeq, List.foldl_cons]
        rw [hstep, fetchTunes_ok initialState r rfl]
        have h2 := runSuccessSeq_append rs
          (incPage
            { initialState with
              error := none,
              tunes := if initialState.page = 1 then r
                else initialState.tunes ++ r,
              hasMore := decide (r.length > 0) &&
                decide (r.length = ITEMS_PER_PAGE),
              loading := false })
          (by simp [incPage]) (by simp [incPage, initialState])
        simp [incPage, initialState] at h2 ⊢
        rw [h2]

/-- Witness for C1 at a concrete non-loading state and concrete pages. -/
theorem fetch_accumulation_c1_witness :
    initialState.loading = false
    ∧ (((fetchTunes initialState (Except.ok [sampleTune])).tunes =
          if initialState.page = 1 then [sampleTune]
          else initialState.tunes ++ [sampleTune])
        ∧ (runSuccessSeq initialState [[sampleTune], []]).tunes.length =
            (([[sampleTune], []] : List (List Tune)).map List.length).sum) :=
  ⟨rfl, fetch_accumulation_c1 initialState [sampleTune] [[sampleTune], []] rfl⟩

/-- C2: after every successful fetch from a non-loading state, the
has-more flag is true iff the returned page contains exactly
`ITEMS_PER_PAGE` (12) items — any smaller count, including zero, sets it
false — and while the flag is false a scroll event never increments the
page counter. -/
theorem hasMore_iff_full_page_c2 (s : ComponentState) (resp : List Tune)
    (h : s.loading = false) :
    ((fetchTunes s (Except.ok resp)).hasMore = true ↔
      resp.length = ITEMS_PER_PAGE)
    ∧ (∀ (t : ComponentState) (st ch sh : ℚ), t.hasMore = false →
        (handleScroll t st ch sh).page = t.page) := by
  constructor
  · rw [fetchTunes_ok s resp h]
    simp only [Bool.and_eq_true, decide_eq_true_eq, ITEMS_PER_PAGE]
    omega
  · intro t st ch sh ht
    simp [handleScroll, ht]

/-- Witness for C2 at a concrete non-loading state and a full page. -/
theorem hasMore_iff_full_page_c2_witness :
    initialState.loading = false
    ∧ (((fetchTunes initialState
          (Except.ok (List.replicate 12 sampleTune))).hasMore = true ↔
        (List.replicate 12 sampleTune).length = ITEMS_PER_PAGE)
      ∧ (∀ (t : ComponentState) (st ch sh : ℚ), t.hasMore = false →
          (handleScroll t st ch sh).page = t.page)) :=
  ⟨rfl, hasMore_iff_full_page_c2 initialState (List.replicate 12 sampleTune) rfl⟩

/-- C3: a keystroke updates the raw search term immediately and leaves the
debounced term alone; when the debounce timer fires, the debounced term
is set to the raw term, the page counter is reset to 1 and the result
list is cleared, and the next fetch issued from that state requests
(page 1, `ITEMS_PER_PAGE`, the new term). -/
theorem debounce_reset_c3 (s : ComponentState) (q : String) :
    (setSearchQuery s q).searchQuery = q
    ∧ (setSearchQuery s q).debouncedSearch = s.debouncedSearch
    ∧ (debounceFire s).debouncedSearch = s.searchQuery
    ∧ (debounceFire s).page = 1
    ∧ (debounceFire s).tunes = []
    ∧ issuedRequest (debounceFire s) = (1, ITEMS_PER_PAGE, s.searchQuery) :=
  ⟨rfl, rfl, rfl, rfl, rfl, rfl⟩

/-- C4: a failed fetch from a non-loading state leaves the result list
unchanged and makes the error indicator visible (the embedding is a total
function, so no exception propagates), and the retry action issues a
fetch again (the in-flight guard passes) with the same
(page, page size, debounced search) triple that failed. -/
theorem fetch_failure_retry_c4 (s : ComponentState) (msg : String)
    (h : s.loading = false) :
    (fetchTunes s (Except.error msg)).tunes = s.tunes
    ∧ (fetchTunes s (Except.error msg)).error =
        some "Failed to load tunes. Please try again."
    ∧ (fetchTunesStart (fetchTunes s (Except.error msg))).2 = true
    ∧ issuedRequest (fetchTunes s (Except.error msg)) = issuedRequest s := by
  rw [fetchTunes_error s msg h]
  refine ⟨rfl, rfl, ?_, rfl⟩
  simp [fetchTunesStart]

/-- Witness for C4 at a concrete non-loading state. -/
theorem fetch_failure_retry_c4_witness :
    initialState.loading = false
    ∧ ((fetchTunes initialState (Except.error "network")).tunes =
          initialState.tunes
        ∧ (fetchTunes initialState (Except.error "network")).error =
            some "Failed to load tunes. Please try again."
        ∧ (fetchTunesStart
            (fetchTunes initialState (Except.error "network"))).2 = true
        ∧ issuedRequest (fetchTunes initialState (Except.error "network")) =
            issuedRequest initialState) :=
  ⟨rfl, fetch_failure_retry_c4 initialState "network" rfl⟩

/-- C5: selecting an item appends exactly the string
`"<lora:" ++ identifier ++ ":1>"` to the end of the shared selection
list, leaving all earlier entries in place, invokes the optional
selection callback with the item, and closes the dialog; in particular
an item with identifier `"abc"` appends exactly `"<lora:abc:1>"`. -/
theorem select_appends_tag_c5 (hasCb : Bool) (s : ComponentState) (tune : Tune) :
    (handleSelect hasCb s tune).1.loraTextList =
        s.loraTextList ++ ["<lora:" ++ tune.id ++ ":1>"]
    ∧ (handleSelect hasCb s tune).1.isOpen = false
    ∧ (handleSelect hasCb s tune).2 =
        (if hasCb then [CallbackEvent.selected tune] else [])
    ∧ (handleSelect hasCb s
        { id := "abc", title := tune.title,
          orig_images := tune.orig_images }).1.loraTextList =
        s.loraTextList ++ ["<lora:abc:1>"] :=
  ⟨rfl, rfl, rfl, rfl⟩

/-- C6: for every selection list and every valid index `i`, the removal
handler deletes exactly the entry at `i` and shifts later entries down by
one (`List.eraseIdx`), and the removal callback is invoked with the
removed entry's value; removing index 0 from
`["<lora:a:1>", "<lora:b:1>"]` yields `["<lora:b:1>"]`. -/
theorem remove_shifts_c6 (hasCb : Bool) (s : ComponentState) (i : Nat)
    (h : i < s.loraTextList.length) :
    (removeLora hasCb s i).1.loraTextList = s.loraTextList.eraseIdx i
    ∧ (removeLora true s i).2 =
        [CallbackEvent.removed (s.loraTextList.get ⟨i, h⟩)]
    ∧ (removeLora hasCb twoLoraState 0).1.loraTextList = ["<lora:b:1>"] := by
  refine ⟨removeLora_eraseIdx hasCb s i, ?_, ?_⟩
  · simp [removeLora, List.getElem?_eq_getElem h]
  · rw [removeLora_eraseIdx hasCb twoLoraState 0]
    rfl

/-- Witness for C6 at the concrete two-element state and index 0. -/
theorem remove_shifts_c6_witness :
    0 < twoLoraState.loraTextList.length
    ∧ ((removeLora true twoLoraState 0).1.loraTextList =
          twoLoraState.loraTextList.eraseIdx 0
        ∧ (removeLora true twoLoraState 0).2 =
            [CallbackEvent.removed
              (twoLoraState.loraTextList.get ⟨0, by decide⟩)]
        ∧ (removeLora true twoLoraState 0).1.loraTextList =
            ["<lora:b:1>"]) :=
  ⟨by decide, remove_shifts_c6 true twoLoraState 0 (by decide)⟩

/-- C7: while a fetch is in flight (the loading flag is set), invoking the
fetch trigger again is a no-op: the guard is not passed, so no request is
issued, and the state is not modified, whatever the pending response
would have been. -/
theorem inflight_guard_c7 (s : ComponentState)
    (result : Except String (List Tune)) (h : s.loading = true) :
    fetchTunes s result = s ∧ fetchTunesStart s = (s, false) := by
  constructor
  · simp [fetchTunes, fetchTunesStart, h]
  · simp [fetchTunesStart, h]

/-- Witness for C7 at a concrete loading state. -/
theorem inflight_guard_c7_witness :
    loadingState.loading = true
    ∧ (fetchTunes loadingState (Except.ok [sampleTune]) = loadingState
        ∧ fetchTunesStart loadingState = (loadingState, false)) :=
  ⟨rfl, inflight_guard_c7 loadingState (Except.ok [sampleTune]) rfl⟩

/-- C8: a scroll event with measurements (scrollTop, clientHeight,
scrollHeight) increments the page counter exactly when the distance still
to scroll, `scrollHeight - scrollTop`, falls to at most 1.5 times the
visible height, the has-more flag is true and no fetch is in flight;
otherwise the whole state is unchanged. -/
theorem scroll_threshold_c8 (s : ComponentState) (st ch sh : ℚ) :
    ((handleScroll s st ch sh).page = s.page + 1 ↔
      (sh - st ≤ ch * (3 / 2) ∧ s.hasMore = true ∧ s.loading = false))
    ∧ ((handleScroll s st ch sh).page = s.page + 1 ∨
        handleScroll s st ch sh = s) := by
  by_cases h1 : sh - st ≤ ch * (3 / 2)
  · by_cases h2 : s.hasMore = true
    · by_cases h3 : s.loading = false
      · simp [handleScroll, h1, h2, h3]
      · rw [Bool.not_eq_false] at h3
        simp [handleScroll, h1, h2, h3]
    · rw [Bool.not_eq_true] at h2
      simp [handleScroll, h1, h2]
  · simp [handleScroll, h1]

/-- C9: a failed fetch from a non-loading state leaves the result list,
the page counter, the has-more flag, the raw search term, the debounced
search term and the selection list all unchanged; in particular a
has-more flag that was true stays true, so scroll paging stays enabled. -/
theorem failure_frame_c9 (s : ComponentState) (msg : String)
    (h : s.loading = false) :
    (fetchTunes s (Except.error msg)).tunes = s.tunes
    ∧ (fetchTunes s (Except.error msg)).page = s.page
    ∧ (fetchTunes s (Except.error msg)).hasMore = s.hasMore
    ∧ (fetchTunes s (Except.error msg)).searchQuery = s.searchQuery
    ∧ (fetchTunes s (Except.error msg)).debouncedSearch = s.debouncedSearch
    ∧ (fetchTunes s (Except.error msg)).loraTextList = s.loraTextList
    ∧ (s.hasMore = true → (fetchTunes s (Except.error msg)).hasMore = true) := by
  rw [fetchTunes_error s msg h]
  exact ⟨rfl, rfl, rfl, rfl, rfl, rfl, fun hx => hx⟩

/-- Witness for C9 at a concrete non-loading state. -/
theorem failure_frame_c9_witness :
    initialState.loading = false
    ∧ ((fetchTunes initialState (Except.error "network")).tunes =
          initialState.tunes
        ∧ (fetchTunes initialState (Except.error "network")).page =
            initialState.page
        ∧ (fetchTunes initialState (Except.error "network")).hasMore =
            initialState.hasMore
        ∧ (fetchTunes initialState (Except.error "network")).searchQuery =
            initialState.searchQuery
        ∧ (fetchTunes initialState (Except.error "network")).debouncedSearch =
            initialState.debouncedSearch
        ∧ (fetchTunes initialState (Except.error "network")).loraTextList =
            initialState.loraTextList
        ∧ (initialState.hasMore = true →
            (fetchTunes initialState (Except.error "network")).hasMore = true)) :=
  ⟨rfl, failure_frame_c9 initialState "network" rfl⟩

/-- C10: every fetch attempt that passes the in-flight guard clears the
error state to null before the request is issued; hence after a
successful fetch the error indicator is not visible, and a retry started
after a failure clears the previous error message as soon as the new
request starts. -/
theorem error_cleared_c10 (s : ComponentState) (resp : List Tune)
    (msg : String) (h : s.loading = false) :
    (fetchTunesStart s).1.error = none
    ∧ (fetchTunes s (Except.ok resp)).error = none
    ∧ (fetchTunesStart (fetchTunes s (Except.error msg))).1.error = none := by
  refine ⟨?_, ?_, ?_⟩
  · simp [fetchTunesStart, h]
  · rw [fetchTunes_ok s resp h]
  · rw [fetchTunes_error s msg h]
    simp [fetchTunesStart]

/-- Witness for C10 at a concrete non-loading state. -/
theorem error_cleared_c10_witness :
    initialState.loading = false
    ∧ ((fetchTunesStart initialState).1.error = none
        ∧ (fetchTunes initialState (Except.ok [sampleTune])).error = none
        ∧ (fetchTunesStart
            (fetchTunes initialState (Except.error "network"))).1.error =
              none) :=
  ⟨rfl, error_cleared_c10 initialState [sampleTune] "network" rfl⟩

end AddLoraText
